import Mathlib

/-!
Verification of the enumerant <-> string codec in
`audio/include/system/audio-hal-enums.h`.

Every conversion function in the header is generated by the same pair of
macros over a per-domain list of `(symbol, value)` entries:

* `AUDIO_DEFINE_STRINGIFY_CASE(_V)` expands each entry to a `case symbol:
  return "symbol";` of a `switch`, with `return ""` as the default — since a
  C `switch` requires pairwise-distinct case values this is the first (and
  only) entry of the list whose value matches, or the empty string.
* `AUDIO_DEFINE_PARSE_CASE(_V)` expands each entry to
  `if (strcmp(s, "symbol") == 0) { *t = symbol; return true; } else`, with a
  trailing `return false;` — a first-match scan that writes the output
  location only on success.

We embed each domain's list as a `List (String × α)` (values are `Nat` for
the unsigned-valued domains and `Int` for the domains that gain a negative
framework-only value), and the two macro shapes as `toName` and
`fromString` below.  `parse` is the pure view of `fromString` that forgets
the output location; `fromString_eq_parse` relates the two.
-/

namespace AudioHalEnums

/-- `switch (t) { case v₁: return "s₁"; ... default: return ""; }`
as a first-match scan over the entry list. -/
def toName {α : Type} [DecidableEq α] : List (String × α) → α → String
  | [], _ => ""
  | (sym, v) :: rest, t => if t = v then sym else toName rest t

/-- The parse if-chain, keeping the output location `t` explicit:
on a match the location receives the entry's value and the result flag is
`true`; when the chain falls through, the result is `false` and the
location still holds its prior contents. -/
def fromString {α : Type} : List (String × α) → String → α → Bool × α
  | [], _, t => (false, t)
  | (sym, v) :: rest, s, t => if sym = s then (true, v) else fromString rest s t

/-- Pure view of the parse chain: the value written on success, `none` on
fall-through. -/
def parse {α : Type} : List (String × α) → String → Option α
  | [], _ => none
  | (sym, v) :: rest, s => if sym = s then some v else parse rest s

/-! ## Channel masks

Discrete output channels (`AUDIO_CHANNEL_OUT_DISCRETE_CHANNEL_LIST_DEF`). -/

def AUDIO_CHANNEL_OUT_FRONT_LEFT : Nat := 0x1
def AUDIO_CHANNEL_OUT_FRONT_RIGHT : Nat := 0x2
def AUDIO_CHANNEL_OUT_FRONT_CENTER : Nat := 0x4
def AUDIO_CHANNEL_OUT_LOW_FREQUENCY : Nat := 0x8
def AUDIO_CHANNEL_OUT_BACK_LEFT : Nat := 0x10
def AUDIO_CHANNEL_OUT_BACK_RIGHT : Nat := 0x20
def AUDIO_CHANNEL_OUT_FRONT_LEFT_OF_CENTER : Nat := 0x40
def AUDIO_CHANNEL_OUT_FRONT_RIGHT_OF_CENTER : Nat := 0x80
def AUDIO_CHANNEL_OUT_BACK_CENTER : Nat := 0x100
def AUDIO_CHANNEL_OUT_SIDE_LEFT : Nat := 0x200
def AUDIO_CHANNEL_OUT_SIDE_RIGHT : Nat := 0x400
def AUDIO_CHANNEL_OUT_TOP_CENTER : Nat := 0x800
def AUDIO_CHANNEL_OUT_TOP_FRONT_LEFT : Nat := 0x1000
def AUDIO_CHANNEL_OUT_TOP_FRONT_CENTER : Nat := 0x2000
def AUDIO_CHANNEL_OUT_TOP_FRONT_RIGHT : Nat := 0x4000
def AUDIO_CHANNEL_OUT_TOP_BACK_LEFT : Nat := 0x8000
def AUDIO_CHANNEL_OUT_TOP_BACK_CENTER : Nat := 0x10000
def AUDIO_CHANNEL_OUT_TOP_BACK_RIGHT : Nat := 0x20000
def AUDIO_CHANNEL_OUT_TOP_SIDE_LEFT : Nat := 0x40000
def AUDIO_CHANNEL_OUT_TOP_SIDE_RIGHT : Nat := 0x80000
def AUDIO_CHANNEL_OUT_HAPTIC_A : Nat := 0x20000000
def AUDIO_CHANNEL_OUT_HAPTIC_B : Nat := 0x10000000

/-- Discrete input channels (`AUDIO_CHANNEL_IN_DISCRETE_CHANNEL_LIST_DEF`). -/
def AUDIO_CHANNEL_IN_LEFT : Nat := 0x4
def AUDIO_CHANNEL_IN_RIGHT : Nat := 0x8
def AUDIO_CHANNEL_IN_FRONT : Nat := 0x10
def AUDIO_CHANNEL_IN_BACK : Nat := 0x20
def AUDIO_CHANNEL_IN_LEFT_PROCESSED : Nat := 0x40
def AUDIO_CHANNEL_IN_RIGHT_PROCESSED : Nat := 0x80
def AUDIO_CHANNEL_IN_FRONT_PROCESSED : Nat := 0x100
def AUDIO_CHANNEL_IN_BACK_PROCESSED : Nat := 0x200
def AUDIO_CHANNEL_IN_PRESSURE : Nat := 0x400
def AUDIO_CHANNEL_IN_X_AXIS : Nat := 0x800
def AUDIO_CHANNEL_IN_Y_AXIS : Nat := 0x1000
def AUDIO_CHANNEL_IN_Z_AXIS : Nat := 0x2000
def AUDIO_CHANNEL_IN_VOICE_UPLINK : Nat := 0x4000
def AUDIO_CHANNEL_IN_VOICE_DNLINK : Nat := 0x8000
def AUDIO_CHANNEL_IN_BACK_LEFT : Nat := 0x10000
def AUDIO_CHANNEL_IN_BACK_RIGHT : Nat := 0x20000
def AUDIO_CHANNEL_IN_CENTER : Nat := 0x40000
def AUDIO_CHANNEL_IN_LOW_FREQUENCY : Nat := 0x100000
def AUDIO_CHANNEL_IN_TOP_LEFT : Nat := 0x200000
def AUDIO_CHANNEL_IN_TOP_RIGHT : Nat := 0x400000

def AUDIO_CHANNEL_NONE : Nat := 0x0

/-- Output mask values (`AUDIO_CHANNEL_OUT_MASK_LIST_UNIQUE_DEF`), OR-composed
from the discrete channels exactly as in the source. -/
def AUDIO_CHANNEL_OUT_MONO : Nat := AUDIO_CHANNEL_OUT_FRONT_LEFT
def AUDIO_CHANNEL_OUT_STEREO : Nat :=
  AUDIO_CHANNEL_OUT_FRONT_LEFT ||| AUDIO_CHANNEL_OUT_FRONT_RIGHT
def AUDIO_CHANNEL_OUT_2POINT1 : Nat :=
  AUDIO_CHANNEL_OUT_FRONT_LEFT ||| AUDIO_CHANNEL_OUT_FRONT_RIGHT |||
  AUDIO_CHANNEL_OUT_LOW_FREQUENCY
def AUDIO_CHANNEL_OUT_TRI : Nat :=
  AUDIO_CHANNEL_OUT_FRONT_LEFT ||| AUDIO_CHANNEL_OUT_FRONT_RIGHT |||
  AUDIO_CHANNEL_OUT_FRONT_CENTER
def AUDIO_CHANNEL_OUT_TRI_BACK : Nat :=
  AUDIO_CHANNEL_OUT_FRONT_LEFT ||| AUDIO_CHANNEL_OUT_FRONT_RIGHT |||
  AUDIO_CHANNEL_OUT_BACK_CENTER
def AUDIO_CHANNEL_OUT_3POINT1 : Nat :=
  AUDIO_CHANNEL_OUT_FRONT_LEFT ||| AUDIO_CHANNEL_OUT_FRONT_RIGHT |||
  AUDIO_CHANNEL_OUT_FRONT_CENTER ||| AUDIO_CHANNEL_OUT_LOW_FREQUENCY
def AUDIO_CHANNEL_OUT_2POINT0POINT2 : Nat :=
  AUDIO_CHANNEL_OUT_FRONT_LEFT ||| AUDIO_CHANNEL_OUT_FRONT_RIGHT |||
  AUDIO_CHANNEL_OUT_TOP_SIDE_LEFT ||| AUDIO_CHANNEL_OUT_TOP_SIDE_RIGHT
def AUDIO_CHANNEL_OUT_2POINT1POINT2 : Nat :=
  AUDIO_CHANNEL_OUT_FRONT_LEFT ||| AUDIO_CHANNEL_OUT_FRONT_RIGHT |||
  AUDIO_CHANNEL_OUT_TOP_SIDE_LEFT ||| AUDIO_CHANNEL_OUT_TOP_SIDE_RIGHT |||
  AUDIO_CHANNEL_OUT_LOW_FREQUENCY
def AUDIO_CHANNEL_OUT_3POINT0POINT2 : Nat :=
  AUDIO_CHANNEL_OUT_FRONT_LEFT ||| AUDIO_CHANNEL_OUT_FRONT_RIGHT |||
  AUDIO_CHANNEL_OUT_FRONT_CENTER |||
  AUDIO_CHANNEL_OUT_TOP_SIDE_LEFT ||| AUDIO_CHANNEL_OUT_TOP_SIDE_RIGHT
def AUDIO_CHANNEL_OUT_3POINT1POINT2 : Nat :=
  AUDIO_CHANNEL_OUT_FRONT_LEFT ||| AUDIO_CHANNEL_OUT_FRONT_RIGHT |||
  AUDIO_CHANNEL_OUT_FRONT_CENTER |||
  AUDIO_CHANNEL_OUT_TOP_SIDE_LEFT ||| AUDIO_CHANNEL_OUT_TOP_SIDE_RIGHT |||
  AUDIO_CHANNEL_OUT_LOW_FREQUENCY
def AUDIO_CHANNEL_OUT_QUAD : Nat :=
  AUDIO_CHANNEL_OUT_FRONT_LEFT ||| AUDIO_CHANNEL_OUT_FRONT_RIGHT |||
  AUDIO_CHANNEL_OUT_BACK_LEFT ||| AUDIO_CHANNEL_OUT_BACK_RIGHT
def AUDIO_CHANNEL_OUT_QUAD_SIDE : Nat :=
  AUDIO_CHANNEL_OUT_FRONT_LEFT ||| AUDIO_CHANNEL_OUT_FRONT_RIGHT |||
  AUDIO_CHANNEL_OUT_SIDE_LEFT ||| AUDIO_CHANNEL_OUT_SIDE_RIGHT
def AUDIO_CHANNEL_OUT_SURROUND : Nat :=
  AUDIO_CHANNEL_OUT_FRONT_LEFT ||| AUDIO_CHANNEL_OUT_FRONT_RIGHT |||
  AUDIO_CHANNEL_OUT_FRONT_CENTER ||| AUDIO_CHANNEL_OUT_BACK_CENTER
def AUDIO_CHANNEL_OUT_PENTA : Nat :=
  AUDIO_CHANNEL_OUT_QUAD ||| AUDIO_CHANNEL_OUT_FRONT_CENTER
def AUDIO_CHANNEL_OUT_5POINT1 : Nat :=
  AUDIO_CHANNEL_OUT_FRONT_LEFT ||| AUDIO_CHANNEL_OUT_FRONT_RIGHT |||
  AUDIO_CHANNEL_OUT_FRONT_CENTER ||| AUDIO_CHANNEL_OUT_LOW_FREQUENCY |||
  AUDIO_CHANNEL_OUT_BACK_LEFT ||| AUDIO_CHANNEL_OUT_BACK_RIGHT
def AUDIO_CHANNEL_OUT_5POINT1_SIDE : Nat :=
  AUDIO_CHANNEL_OUT_FRONT_LEFT ||| AUDIO_CHANNEL_OUT_FRONT_RIGHT |||
  AUDIO_CHANNEL_OUT_FRONT_CENTER ||| AUDIO_CHANNEL_OUT_LOW_FREQUENCY |||
  AUDIO_CHANNEL_OUT_SIDE_LEFT ||| AUDIO_CHANNEL_OUT_SIDE_RIGHT
def AUDIO_CHANNEL_OUT_5POINT1POINT2 : Nat :=
  AUDIO_CHANNEL_OUT_5POINT1 |||
  AUDIO_CHANNEL_OUT_TOP_SIDE_LEFT ||| AUDIO_CHANNEL_OUT_TOP_SIDE_RIGHT
def AUDIO_CHANNEL_OUT_5POINT1POINT4 : Nat :=
  AUDIO_CHANNEL_OUT_5POINT1 |||
  AUDIO_CHANNEL_OUT_TOP_FRONT_LEFT ||| AUDIO_CHANNEL_OUT_TOP_FRONT_RIGHT |||
  AUDIO_CHANNEL_OUT_TOP_BACK_LEFT ||| AUDIO_CHANNEL_OUT_TOP_BACK_RIGHT
def AUDIO_CHANNEL_OUT_6POINT1 : Nat :=
  AUDIO_CHANNEL_OUT_FRONT_LEFT ||| AUDIO_CHANNEL_OUT_FRONT_RIGHT |||
  AUDIO_CHANNEL_OUT_FRONT_CENTER ||| AUDIO_CHANNEL_OUT_LOW_FREQUENCY |||
  AUDIO_CHANNEL_OUT_BACK_LEFT ||| AUDIO_CHANNEL_OUT_BACK_RIGHT |||
  AUDIO_CHANNEL_OUT_BACK_CENTER
def AUDIO_CHANNEL_OUT_7POINT1 : Nat :=
  AUDIO_CHANNEL_OUT_FRONT_LEFT ||| AUDIO_CHANNEL_OUT_FRONT_RIGHT |||
  AUDIO_CHANNEL_OUT_FRONT_CENTER ||| AUDIO_CHANNEL_OUT_LOW_FREQUENCY |||
  AUDIO_CHANNEL_OUT_BACK_LEFT ||| AUDIO_CHANNEL_OUT_BACK_RIGHT |||
  AUDIO_CHANNEL_OUT_SIDE_LEFT ||| AUDIO_CHANNEL_OUT_SIDE_RIGHT
def AUDIO_CHANNEL_OUT_7POINT1POINT2 : Nat :=
  AUDIO_CHANNEL_OUT_7POINT1 |||
  AUDIO_CHANNEL_OUT_TOP_SIDE_LEFT ||| AUDIO_CHANNEL_OUT_TOP_SIDE_RIGHT
def AUDIO_CHANNEL_OUT_7POINT1POINT4 : Nat :=
  AUDIO_CHANNEL_OUT_7POINT1 |||
  AUDIO_CHANNEL_OUT_TOP_FRONT_LEFT ||| AUDIO_CHANNEL_OUT_TOP_FRONT_RIGHT |||
  AUDIO_CHANNEL_OUT_TOP_BACK_LEFT ||| AUDIO_CHANNEL_OUT_TOP_BACK_RIGHT
def AUDIO_CHANNEL_OUT_MONO_HAPTIC_A : Nat :=
  AUDIO_CHANNEL_OUT_MONO ||| AUDIO_CHANNEL_OUT_HAPTIC_A
def AUDIO_CHANNEL_OUT_STEREO_HAPTIC_A : Nat :=
  AUDIO_CHANNEL_OUT_STEREO ||| AUDIO_CHANNEL_OUT_HAPTIC_A
def AUDIO_CHANNEL_OUT_HAPTIC_AB : Nat :=
  AUDIO_CHANNEL_OUT_HAPTIC_A ||| AUDIO_CHANNEL_OUT_HAPTIC_B
def AUDIO_CHANNEL_OUT_MONO_HAPTIC_AB : Nat :=
  AUDIO_CHANNEL_OUT_MONO ||| AUDIO_CHANNEL_OUT_HAPTIC_AB
def AUDIO_CHANNEL_OUT_STEREO_HAPTIC_AB : Nat :=
  AUDIO_CHANNEL_OUT_STEREO ||| AUDIO_CHANNEL_OUT_HAPTIC_AB

/-- Aliases appended by `AUDIO_CHANNEL_OUT_MASK_LIST_DEF`. -/
def AUDIO_CHANNEL_OUT_5POINT1_BACK : Nat := AUDIO_CHANNEL_OUT_5POINT1
def AUDIO_CHANNEL_OUT_QUAD_BACK : Nat := AUDIO_CHANNEL_OUT_QUAD

/-- Input mask values (`AUDIO_CHANNEL_IN_MASK_LIST_DEF`). -/
def AUDIO_CHANNEL_IN_MONO : Nat := AUDIO_CHANNEL_IN_FRONT
def AUDIO_CHANNEL_IN_STEREO : Nat :=
  AUDIO_CHANNEL_IN_LEFT ||| AUDIO_CHANNEL_IN_RIGHT
def AUDIO_CHANNEL_IN_FRONT_BACK : Nat :=
  AUDIO_CHANNEL_IN_FRONT ||| AUDIO_CHANNEL_IN_BACK
def AUDIO_CHANNEL_IN_6 : Nat :=
  AUDIO_CHANNEL_IN_LEFT ||| AUDIO_CHANNEL_IN_RIGHT |||
  AUDIO_CHANNEL_IN_FRONT ||| AUDIO_CHANNEL_IN_BACK |||
  AUDIO_CHANNEL_IN_LEFT_PROCESSED ||| AUDIO_CHANNEL_IN_RIGHT_PROCESSED
def AUDIO_CHANNEL_IN_2POINT0POINT2 : Nat :=
  AUDIO_CHANNEL_IN_LEFT ||| AUDIO_CHANNEL_IN_RIGHT |||
  AUDIO_CHANNEL_IN_TOP_LEFT ||| AUDIO_CHANNEL_IN_TOP_RIGHT
def AUDIO_CHANNEL_IN_2POINT1POINT2 : Nat :=
  AUDIO_CHANNEL_IN_LEFT ||| AUDIO_CHANNEL_IN_RIGHT |||
  AUDIO_CHANNEL_IN_TOP_LEFT ||| AUDIO_CHANNEL_IN_TOP_RIGHT |||
  AUDIO_CHANNEL_IN_LOW_FREQUENCY
def AUDIO_CHANNEL_IN_3POINT0POINT2 : Nat :=
  AUDIO_CHANNEL_IN_LEFT ||| AUDIO_CHANNEL_IN_CENTER ||| AUDIO_CHANNEL_IN_RIGHT |||
  AUDIO_CHANNEL_IN_TOP_LEFT ||| AUDIO_CHANNEL_IN_TOP_RIGHT
def AUDIO_CHANNEL_IN_3POINT1POINT2 : Nat :=
  AUDIO_CHANNEL_IN_LEFT ||| AUDIO_CHANNEL_IN_CENTER ||| AUDIO_CHANNEL_IN_RIGHT |||
  AUDIO_CHANNEL_IN_TOP_LEFT ||| AUDIO_CHANNEL_IN_TOP_RIGHT |||
  AUDIO_CHANNEL_IN_LOW_FREQUENCY
def AUDIO_CHANNEL_IN_5POINT1 : Nat :=
  AUDIO_CHANNEL_IN_LEFT ||| AUDIO_CHANNEL_IN_CENTER ||| AUDIO_CHANNEL_IN_RIGHT |||
  AUDIO_CHANNEL_IN_BACK_LEFT ||| AUDIO_CHANNEL_IN_BACK_RIGHT |||
  AUDIO_CHANNEL_IN_LOW_FREQUENCY
def AUDIO_CHANNEL_IN_VOICE_UPLINK_MONO : Nat :=
  AUDIO_CHANNEL_IN_VOICE_UPLINK ||| AUDIO_CHANNEL_IN_MONO
def AUDIO_CHANNEL_IN_VOICE_DNLINK_MONO : Nat :=
  AUDIO_CHANNEL_IN_VOICE_DNLINK ||| AUDIO_CHANNEL_IN_MONO
def AUDIO_CHANNEL_IN_VOICE_CALL_MONO : Nat :=
  AUDIO_CHANNEL_IN_VOICE_UPLINK_MONO ||| AUDIO_CHANNEL_IN_VOICE_DNLINK_MONO

def AUDIO_CHANNEL_INDEX_HDR : Nat := 0x80000000
def AUDIO_CHANNEL_INVALID : Nat := 0xC0000000

/-- `AUDIO_CHANNEL_IN_OUT_MASK_LIST_DEF`. -/
def audioChannelInOutMaskList : List (String × Nat) :=
  [("AUDIO_CHANNEL_NONE", AUDIO_CHANNEL_NONE)]

/-- `AUDIO_CHANNEL_OUT_MASK_LIST_UNIQUE_DEF`. -/
def audioChannelOutMaskListUnique : List (String × Nat) :=
  [("AUDIO_CHANNEL_OUT_MONO", AUDIO_CHANNEL_OUT_MONO),
   ("AUDIO_CHANNEL_OUT_STEREO", AUDIO_CHANNEL_OUT_STEREO),
   ("AUDIO_CHANNEL_OUT_2POINT1", AUDIO_CHANNEL_OUT_2POINT1),
   ("AUDIO_CHANNEL_OUT_TRI", AUDIO_CHANNEL_OUT_TRI),
   ("AUDIO_CHANNEL_OUT_TRI_BACK", AUDIO_CHANNEL_OUT_TRI_BACK),
   ("AUDIO_CHANNEL_OUT_3POINT1", AUDIO_CHANNEL_OUT_3POINT1),
   ("AUDIO_CHANNEL_OUT_2POINT0POINT2", AUDIO_CHANNEL_OUT_2POINT0POINT2),
   ("AUDIO_CHANNEL_OUT_2POINT1POINT2", AUDIO_CHANNEL_OUT_2POINT1POINT2),
   ("AUDIO_CHANNEL_OUT_3POINT0POINT2", AUDIO_CHANNEL_OUT_3POINT0POINT2),
   ("AUDIO_CHANNEL_OUT_3POINT1POINT2", AUDIO_CHANNEL_OUT_3POINT1POINT2),
   ("AUDIO_CHANNEL_OUT_QUAD", AUDIO_CHANNEL_OUT_QUAD),
   ("AUDIO_CHANNEL_OUT_QUAD_SIDE", AUDIO_CHANNEL_OUT_QUAD_SIDE),
   ("AUDIO_CHANNEL_OUT_SURROUND", AUDIO_CHANNEL_OUT_SURROUND),
   ("AUDIO_CHANNEL_OUT_PENTA", AUDIO_CHANNEL_OUT_PENTA),
   ("AUDIO_CHANNEL_OUT_5POINT1", AUDIO_CHANNEL_OUT_5POINT1),
   ("AUDIO_CHANNEL_OUT_5POINT1_SIDE", AUDIO_CHANNEL_OUT_5POINT1_SIDE),
   ("AUDIO_CHANNEL_OUT_5POINT1POINT2", AUDIO_CHANNEL_OUT_5POINT1POINT2),
   ("AUDIO_CHANNEL_OUT_5POINT1POINT4", AUDIO_CHANNEL_OUT_5POINT1POINT4),
   ("AUDIO_CHANNEL_OUT_6POINT1", AUDIO_CHANNEL_OUT_6POINT1),
   ("AUDIO_CHANNEL_OUT_7POINT1", AUDIO_CHANNEL_OUT_7POINT1),
   ("AUDIO_CHANNEL_OUT_7POINT1POINT2", AUDIO_CHANNEL_OUT_7POINT1POINT2),
   ("AUDIO_CHANNEL_OUT_7POINT1POINT4", AUDIO_CHANNEL_OUT_7POINT1POINT4),
   ("AUDIO_CHANNEL_OUT_MONO_HAPTIC_A", AUDIO_CHANNEL_OUT_MONO_HAPTIC_A),
   ("AUDIO_CHANNEL_OUT_STEREO_HAPTIC_A", AUDIO_CHANNEL_OUT_STEREO_HAPTIC_A),
   ("AUDIO_CHANNEL_OUT_HAPTIC_AB", AUDIO_CHANNEL_OUT_HAPTIC_AB),
   ("AUDIO_CHANNEL_OUT_MONO_HAPTIC_AB", AUDIO_CHANNEL_OUT_MONO_HAPTIC_AB),
   ("AUDIO_CHANNEL_OUT_STEREO_HAPTIC_AB", AUDIO_CHANNEL_OUT_STEREO_HAPTIC_AB)]

/-- The two alias rows `AUDIO_CHANNEL_OUT_MASK_LIST_DEF` appends to the
unique list. -/
def audioChannelOutMaskAliasList : List (String × Nat) :=
  [("AUDIO_CHANNEL_OUT_5POINT1_BACK", AUDIO_CHANNEL_OUT_5POINT1_BACK),
   ("AUDIO_CHANNEL_OUT_QUAD_BACK", AUDIO_CHANNEL_OUT_QUAD_BACK)]

/-- `AUDIO_CHANNEL_OUT_MASK_LIST_DEF` = unique list plus the two aliases. -/
def audioChannelOutMaskList : List (String × Nat) :=
  audioChannelOutMaskListUnique ++ audioChannelOutMaskAliasList

/-- `AUDIO_CHANNEL_IN_MASK_LIST_DEF`. -/
def audioChannelInMaskList : List (String × Nat) :=
  [("AUDIO_CHANNEL_IN_MONO", AUDIO_CHANNEL_IN_MONO),
   ("AUDIO_CHANNEL_IN_STEREO", AUDIO_CHANNEL_IN_STEREO),
   ("AUDIO_CHANNEL_IN_FRONT_BACK", AUDIO_CHANNEL_IN_FRONT_BACK),
   ("AUDIO_CHANNEL_IN_6", AUDIO_CHANNEL_IN_6),
   ("AUDIO_CHANNEL_IN_2POINT0POINT2", AUDIO_CHANNEL_IN_2POINT0POINT2),
   ("AUDIO_CHANNEL_IN_2POINT1POINT2", AUDIO_CHANNEL_IN_2POINT1POINT2),
   ("AUDIO_CHANNEL_IN_3POINT0POINT2", AUDIO_CHANNEL_IN_3POINT0POINT2),
   ("AUDIO_CHANNEL_IN_3POINT1POINT2", AUDIO_CHANNEL_IN_3POINT1POINT2),
   ("AUDIO_CHANNEL_IN_5POINT1", AUDIO_CHANNEL_IN_5POINT1),
   ("AUDIO_CHANNEL_IN_VOICE_UPLINK_MONO", AUDIO_CHANNEL_IN_VOICE_UPLINK_MONO),
   ("AUDIO_CHANNEL_IN_VOICE_DNLINK_MONO", AUDIO_CHANNEL_IN_VOICE_DNLINK_MONO),
   ("AUDIO_CHANNEL_IN_VOICE_CALL_MONO", AUDIO_CHANNEL_IN_VOICE_CALL_MONO)]

/-- `AUDIO_CHANNEL_INDEX_MASK_LIST_DEF`: entry N has value
`AUDIO_CHANNEL_INDEX_HDR | ((1 << N) - 1)`. -/
def audioChannelIndexMaskList : List (String × Nat) :=
  [("AUDIO_CHANNEL_INDEX_MASK_1", AUDIO_CHANNEL_INDEX_HDR ||| ((1 <<< 1) - 1)),
   ("AUDIO_CHANNEL_INDEX_MASK_2", AUDIO_CHANNEL_INDEX_HDR ||| ((1 <<< 2) - 1)),
   ("AUDIO_CHANNEL_INDEX_MASK_3", AUDIO_CHANNEL_INDEX_HDR ||| ((1 <<< 3) - 1)),
   ("AUDIO_CHANNEL_INDEX_MASK_4", AUDIO_CHANNEL_INDEX_HDR ||| ((1 <<< 4) - 1)),
   ("AUDIO_CHANNEL_INDEX_MASK_5", AUDIO_CHANNEL_INDEX_HDR ||| ((1 <<< 5) - 1)),
   ("AUDIO_CHANNEL_INDEX_MASK_6", AUDIO_CHANNEL_INDEX_HDR ||| ((1 <<< 6) - 1)),
   ("AUDIO_CHANNEL_INDEX_MASK_7", AUDIO_CHANNEL_INDEX_HDR ||| ((1 <<< 7) - 1)),
   ("AUDIO_CHANNEL_INDEX_MASK_8", AUDIO_CHANNEL_INDEX_HDR ||| ((1 <<< 8) - 1)),
   ("AUDIO_CHANNEL_INDEX_MASK_9", AUDIO_CHANNEL_INDEX_HDR ||| ((1 <<< 9) - 1)),
   ("AUDIO_CHANNEL_INDEX_MASK_10", AUDIO_CHANNEL_INDEX_HDR ||| ((1 <<< 10) - 1)),
   ("AUDIO_CHANNEL_INDEX_MASK_11", AUDIO_CHANNEL_INDEX_HDR ||| ((1 <<< 11) - 1)),
   ("AUDIO_CHANNEL_INDEX_MASK_12", AUDIO_CHANNEL_INDEX_HDR ||| ((1 <<< 12) - 1)),
   ("AUDIO_CHANNEL_INDEX_MASK_13", AUDIO_CHANNEL_INDEX_HDR ||| ((1 <<< 13) - 1)),
   ("AUDIO_CHANNEL_INDEX_MASK_14", AUDIO_CHANNEL_INDEX_HDR ||| ((1 <<< 14) - 1)),
   ("AUDIO_CHANNEL_INDEX_MASK_15", AUDIO_CHANNEL_INDEX_HDR ||| ((1 <<< 15) - 1)),
   ("AUDIO_CHANNEL_INDEX_MASK_16", AUDIO_CHANNEL_INDEX_HDR ||| ((1 <<< 16) - 1)),
   ("AUDIO_CHANNEL_INDEX_MASK_17", AUDIO_CHANNEL_INDEX_HDR ||| ((1 <<< 17) - 1)),
   ("AUDIO_CHANNEL_INDEX_MASK_18", AUDIO_CHANNEL_INDEX_HDR ||| ((1 <<< 18) - 1)),
   ("AUDIO_CHANNEL_INDEX_MASK_19", AUDIO_CHANNEL_INDEX_HDR ||| ((1 <<< 19) - 1)),
   ("AUDIO_CHANNEL_INDEX_MASK_20", AUDIO_CHANNEL_INDEX_HDR ||| ((1 <<< 20) - 1)),
   ("AUDIO_CHANNEL_INDEX_MASK_21", AUDIO_CHANNEL_INDEX_HDR ||| ((1 <<< 21) - 1)),
   ("AUDIO_CHANNEL_INDEX_MASK_22", AUDIO_CHANNEL_INDEX_HDR ||| ((1 <<< 22) - 1)),
   ("AUDIO_CHANNEL_INDEX_MASK_23", AUDIO_CHANNEL_INDEX_HDR ||| ((1 <<< 23) - 1)),
   ("AUDIO_CHANNEL_INDEX_MASK_24", AUDIO_CHANNEL_INDEX_HDR ||| ((1 <<< 24) - 1))]

/-- `audio_channel_out_mask_to_string`: switch over the IN_OUT and
OUT unique lists. -/
def audio_channel_out_mask_to_string (t : Nat) : String :=
  toName (audioChannelInOutMaskList ++ audioChannelOutMaskListUnique) t

/-- `audio_channel_in_mask_to_string`: switch over the IN_OUT and IN lists. -/
def audio_channel_in_mask_to_string (t : Nat) : String :=
  toName (audioChannelInOutMaskList ++ audioChannelInMaskList) t

/-- `audio_channel_index_mask_to_string`: switch over the IN_OUT and
INDEX lists. -/
def audio_channel_index_mask_to_string (t : Nat) : String :=
  toName (audioChannelInOutMaskList ++ audioChannelIndexMaskList) t

/-- The parse chain of `audio_channel_mask_from_string`: IN_OUT, OUT (with
aliases), IN, INDEX lists in that order. -/
def audioChannelMaskParseList : List (String × Nat) :=
  audioChannelInOutMaskList ++ audioChannelOutMaskList ++
  audioChannelInMaskList ++ audioChannelIndexMaskList

/-- `audio_channel_mask_from_string` with the output location explicit. -/
def audio_channel_mask_from_string (s : String) (t : Nat) : Bool × Nat :=
  fromString audioChannelMaskParseList s t

/-- Pure view of `audio_channel_mask_from_string`. -/
def audio_channel_mask_parse (s : String) : Option Nat :=
  parse audioChannelMaskParseList s

/-! ## Content type

`AUDIO_CONTENT_TYPE_LIST_DEF` uses the plain (valueless) macro variants,
so the C enum numbers the symbols 0, 1, 2, ... in list order. -/

def audioContentTypeList : List (String × Nat) :=
  [("AUDIO_CONTENT_TYPE_UNKNOWN", 0),
   ("AUDIO_CONTENT_TYPE_SPEECH", 1),
   ("AUDIO_CONTENT_TYPE_MUSIC", 2),
   ("AUDIO_CONTENT_TYPE_MOVIE", 3),
   ("AUDIO_CONTENT_TYPE_SONIFICATION", 4)]

def audio_content_type_to_string (t : Nat) : String :=
  toName audioContentTypeList t

def audio_content_type_from_string (s : String) (t : Nat) : Bool × Nat :=
  fromString audioContentTypeList s t

def audio_content_type_parse (s : String) : Option Nat :=
  parse audioContentTypeList s

/-! ## Devices -/

def AUDIO_DEVICE_BIT_IN : Nat := 0x80000000
def AUDIO_DEVICE_BIT_DEFAULT : Nat := 0x40000000
def AUDIO_DEVICE_OUT_HDMI : Nat := 0x400
def AUDIO_DEVICE_OUT_DEFAULT : Nat := AUDIO_DEVICE_BIT_DEFAULT
def AUDIO_DEVICE_IN_TELEPHONY_RX : Nat := AUDIO_DEVICE_BIT_IN ||| 0x40
def AUDIO_DEVICE_IN_HDMI : Nat := AUDIO_DEVICE_BIT_IN ||| 0x20
def AUDIO_DEVICE_IN_DEFAULT : Nat := AUDIO_DEVICE_BIT_IN ||| AUDIO_DEVICE_BIT_DEFAULT

/-- `AUDIO_DEVICE_LIST_UNIQUE_DEF`. -/
def audioDeviceListUnique : List (String × Nat) :=
  [("AUDIO_DEVICE_NONE", 0x0),
   ("AUDIO_DEVICE_OUT_EARPIECE", 0x1),
   ("AUDIO_DEVICE_OUT_SPEAKER", 0x2),
   ("AUDIO_DEVICE_OUT_WIRED_HEADSET", 0x4),
   ("AUDIO_DEVICE_OUT_WIRED_HEADPHONE", 0x8),
   ("AUDIO_DEVICE_OUT_BLUETOOTH_SCO", 0x10),
   ("AUDIO_DEVICE_OUT_BLUETOOTH_SCO_HEADSET", 0x20),
   ("AUDIO_DEVICE_OUT_BLUETOOTH_SCO_CARKIT", 0x40),
   ("AUDIO_DEVICE_OUT_BLUETOOTH_A2DP", 0x80),
   ("AUDIO_DEVICE_OUT_BLUETOOTH_A2DP_HEADPHONES", 0x100),
   ("AUDIO_DEVICE_OUT_BLUETOOTH_A2DP_SPEAKER", 0x200),
   ("AUDIO_DEVICE_OUT_HDMI", AUDIO_DEVICE_OUT_HDMI),
   ("AUDIO_DEVICE_OUT_ANLG_DOCK_HEADSET", 0x800),
   ("AUDIO_DEVICE_OUT_DGTL_DOCK_HEADSET", 0x1000),
   ("AUDIO_DEVICE_OUT_USB_ACCESSORY", 0x2000),
   ("AUDIO_DEVICE_OUT_USB_DEVICE", 0x4000),
   ("AUDIO_DEVICE_OUT_REMOTE_SUBMIX", 0x8000),
   ("AUDIO_DEVICE_OUT_TELEPHONY_TX", 0x10000),
   ("AUDIO_DEVICE_OUT_LINE", 0x20000),
   ("AUDIO_DEVICE_OUT_HDMI_ARC", 0x40000),
   ("AUDIO_DEVICE_OUT_SPDIF", 0x80000),
   ("AUDIO_DEVICE_OUT_FM", 0x100000),
   ("AUDIO_DEVICE_OUT_AUX_LINE", 0x200000),
   ("AUDIO_DEVICE_OUT_SPEAKER_SAFE", 0x400000),
   ("AUDIO_DEVICE_OUT_IP", 0x800000),
   ("AUDIO_DEVICE_OUT_BUS", 0x1000000),
   ("AUDIO_DEVICE_OUT_PROXY", 0x2000000),
   ("AUDIO_DEVICE_OUT_USB_HEADSET", 0x4000000),
   ("AUDIO_DEVICE_OUT_HEARING_AID", 0x8000000),
   ("AUDIO_DEVICE_OUT_ECHO_CANCELLER", 0x10000000),
   ("AUDIO_DEVICE_OUT_BLE_HEADSET", 0x20000000),
   ("AUDIO_DEVICE_OUT_BLE_SPEAKER", 0x20000001),
   ("AUDIO_DEVICE_OUT_DEFAULT", AUDIO_DEVICE_OUT_DEFAULT),
   ("AUDIO_DEVICE_IN_COMMUNICATION", AUDIO_DEVICE_BIT_IN ||| 0x1),
   ("AUDIO_DEVICE_IN_AMBIENT", AUDIO_DEVICE_BIT_IN ||| 0x2),
   ("AUDIO_DEVICE_IN_BUILTIN_MIC", AUDIO_DEVICE_BIT_IN ||| 0x4),
   ("AUDIO_DEVICE_IN_BLUETOOTH_SCO_HEADSET", AUDIO_DEVICE_BIT_IN ||| 0x8),
   ("AUDIO_DEVICE_IN_WIRED_HEADSET", AUDIO_DEVICE_BIT_IN ||| 0x10),
   ("AUDIO_DEVICE_IN_HDMI", AUDIO_DEVICE_IN_HDMI),
   ("AUDIO_DEVICE_IN_TELEPHONY_RX", AUDIO_DEVICE_IN_TELEPHONY_RX),
   ("AUDIO_DEVICE_IN_BACK_MIC", AUDIO_DEVICE_BIT_IN ||| 0x80),
   ("AUDIO_DEVICE_IN_REMOTE_SUBMIX", AUDIO_DEVICE_BIT_IN ||| 0x100),
   ("AUDIO_DEVICE_IN_ANLG_DOCK_HEADSET", AUDIO_DEVICE_BIT_IN ||| 0x200),
   ("AUDIO_DEVICE_IN_DGTL_DOCK_HEADSET", AUDIO_DEVICE_BIT_IN ||| 0x400),
   ("AUDIO_DEVICE_IN_USB_ACCESSORY", AUDIO_DEVICE_BIT_IN ||| 0x800),
   ("AUDIO_DEVICE_IN_USB_DEVICE", AUDIO_DEVICE_BIT_IN ||| 0x1000),
   ("AUDIO_DEVICE_IN_FM_TUNER", AUDIO_DEVICE_BIT_IN ||| 0x2000),
   ("AUDIO_DEVICE_IN_TV_TUNER", AUDIO_DEVICE_BIT_IN ||| 0x4000),
   ("AUDIO_DEVICE_IN_LINE", AUDIO_DEVICE_BIT_IN ||| 0x8000),
   ("AUDIO_DEVICE_IN_SPDIF", AUDIO_DEVICE_BIT_IN ||| 0x10000),
   ("AUDIO_DEVICE_IN_BLUETOOTH_A2DP", AUDIO_DEVICE_BIT_IN ||| 0x20000),
   ("AUDIO_DEVICE_IN_LOOPBACK", AUDIO_DEVICE_BIT_IN ||| 0x40000),
   ("AUDIO_DEVICE_IN_IP", AUDIO_DEVICE_BIT_IN ||| 0x80000),
   ("AUDIO_DEVICE_IN_BUS", AUDIO_DEVICE_BIT_IN ||| 0x100000),
   ("AUDIO_DEVICE_IN_PROXY", AUDIO_DEVICE_BIT_IN ||| 0x1000000),
   ("AUDIO_DEVICE_IN_USB_HEADSET", AUDIO_DEVICE_BIT_IN ||| 0x2000000),
   ("AUDIO_DEVICE_IN_BLUETOOTH_BLE", AUDIO_DEVICE_BIT_IN ||| 0x4000000),
   ("AUDIO_DEVICE_IN_HDMI_ARC", AUDIO_DEVICE_BIT_IN ||| 0x8000000),
   ("AUDIO_DEVICE_IN_ECHO_REFERENCE", AUDIO_DEVICE_BIT_IN ||| 0x10000000),
   ("AUDIO_DEVICE_IN_BLE_HEADSET", AUDIO_DEVICE_BIT_IN ||| 0x20000000),
   ("AUDIO_DEVICE_IN_DEFAULT", AUDIO_DEVICE_IN_DEFAULT)]

/-- The five alias rows `AUDIO_DEVICE_LIST_DEF` appends to the unique
list. -/
def audioDeviceAliasList : List (String × Nat) :=
  [("AUDIO_DEVICE_OUT_AUX_DIGITAL", AUDIO_DEVICE_OUT_HDMI),
   ("AUDIO_DEVICE_OUT_STUB", AUDIO_DEVICE_OUT_DEFAULT),
   ("AUDIO_DEVICE_IN_VOICE_CALL", AUDIO_DEVICE_IN_TELEPHONY_RX),
   ("AUDIO_DEVICE_IN_AUX_DIGITAL", AUDIO_DEVICE_IN_HDMI),
   ("AUDIO_DEVICE_IN_STUB", AUDIO_DEVICE_IN_DEFAULT)]

/-- `AUDIO_DEVICE_LIST_DEF` = unique list plus the five aliases. -/
def audioDeviceList : List (String × Nat) :=
  audioDeviceListUnique ++ audioDeviceAliasList

/-- `audio_device_to_string`: switch over the unique list only. -/
def audio_device_to_string (t : Nat) : String :=
  toName audioDeviceListUnique t

def audio_device_from_string (s : String) (t : Nat) : Bool × Nat :=
  fromString audioDeviceList s t

def audio_device_parse (s : String) : Option Nat :=
  parse audioDeviceList s

/-! ## Output flags -/

def audioOutputFlagList : List (String × Nat) :=
  [("AUDIO_OUTPUT_FLAG_NONE", 0x0),
   ("AUDIO_OUTPUT_FLAG_DIRECT", 0x1),
   ("AUDIO_OUTPUT_FLAG_PRIMARY", 0x2),
   ("AUDIO_OUTPUT_FLAG_FAST", 0x4),
   ("AUDIO_OUTPUT_FLAG_DEEP_BUFFER", 0x8),
   ("AUDIO_OUTPUT_FLAG_COMPRESS_OFFLOAD", 0x10),
   ("AUDIO_OUTPUT_FLAG_NON_BLOCKING", 0x20),
   ("AUDIO_OUTPUT_FLAG_HW_AV_SYNC", 0x40),
   ("AUDIO_OUTPUT_FLAG_TTS", 0x80),
   ("AUDIO_OUTPUT_FLAG_RAW", 0x100),
   ("AUDIO_OUTPUT_FLAG_SYNC", 0x200),
   ("AUDIO_OUTPUT_FLAG_IEC958_NONAUDIO", 0x400),
   ("AUDIO_OUTPUT_FLAG_DIRECT_PCM", 0x2000),
   ("AUDIO_OUTPUT_FLAG_MMAP_NOIRQ", 0x4000),
   ("AUDIO_OUTPUT_FLAG_VOIP_RX", 0x8000),
   ("AUDIO_OUTPUT_FLAG_INCALL_MUSIC", 0x10000),
   ("AUDIO_OUTPUT_FLAG_GAPLESS_OFFLOAD", 0x20000)]

def audio_output_flag_to_string (t : Nat) : String :=
  toName audioOutputFlagList t

def audio_output_flag_from_string (s : String) (t : Nat) : Bool × Nat :=
  fromString audioOutputFlagList s t

def audio_output_flag_parse (s : String) : Option Nat :=
  parse audioOutputFlagList s

/-! ## Input flags -/

def audioInputFlagList : List (String × Nat) :=
  [("AUDIO_INPUT_FLAG_NONE", 0x0),
   ("AUDIO_INPUT_FLAG_FAST", 0x1),
   ("AUDIO_INPUT_FLAG_HW_HOTWORD", 0x2),
   ("AUDIO_INPUT_FLAG_RAW", 0x4),
   ("AUDIO_INPUT_FLAG_SYNC", 0x8),
   ("AUDIO_INPUT_FLAG_MMAP_NOIRQ", 0x10),
   ("AUDIO_INPUT_FLAG_VOIP_TX", 0x20),
   ("AUDIO_INPUT_FLAG_HW_AV_SYNC", 0x40),
   ("AUDIO_INPUT_FLAG_DIRECT", 0x80)]

def audio_input_flag_to_string (t : Nat) : String :=
  toName audioInputFlagList t

def audio_input_flag_from_string (s : String) (t : Nat) : Bool × Nat :=
  fromString audioInputFlagList s t

def audio_input_flag_parse (s : String) : Option Nat :=
  parse audioInputFlagList s

/-! ## Formats

Building-block constants from the anonymous enum preceding
`AUDIO_FORMAT_LIST_DEF`. -/

def AUDIO_FORMAT_PCM_MAIN : Nat := 0
def AUDIO_FORMAT_PCM_SUB_16_BIT : Nat := 0x1
def AUDIO_FORMAT_PCM_SUB_8_BIT : Nat := 0x2
def AUDIO_FORMAT_PCM_SUB_32_BIT : Nat := 0x3
def AUDIO_FORMAT_PCM_SUB_8_24_BIT : Nat := 0x4
def AUDIO_FORMAT_PCM_SUB_FLOAT : Nat := 0x5
def AUDIO_FORMAT_PCM_SUB_24_BIT_PACKED : Nat := 0x6
def AUDIO_FORMAT_AAC_SUB_MAIN : Nat := 0x1
def AUDIO_FORMAT_AAC_SUB_LC : Nat := 0x2
def AUDIO_FORMAT_AAC_SUB_SSR : Nat := 0x4
def AUDIO_FORMAT_AAC_SUB_LTP : Nat := 0x8
def AUDIO_FORMAT_AAC_SUB_HE_V1 : Nat := 0x10
def AUDIO_FORMAT_AAC_SUB_SCALABLE : Nat := 0x20
def AUDIO_FORMAT_AAC_SUB_ERLC : Nat := 0x40
def AUDIO_FORMAT_AAC_SUB_LD : Nat := 0x80
def AUDIO_FORMAT_AAC_SUB_HE_V2 : Nat := 0x100
def AUDIO_FORMAT_AAC_SUB_ELD : Nat := 0x200
def AUDIO_FORMAT_AAC_SUB_XHE : Nat := 0x300
def AUDIO_FORMAT_E_AC3_SUB_JOC : Nat := 0x1
def AUDIO_FORMAT_MAT_SUB_1_0 : Nat := 0x1
def AUDIO_FORMAT_MAT_SUB_2_0 : Nat := 0x2
def AUDIO_FORMAT_MAT_SUB_2_1 : Nat := 0x3
def AUDIO_FORMAT_MPEGH_SUB_BL_L3 : Nat := 0x13
def AUDIO_FORMAT_MPEGH_SUB_BL_L4 : Nat := 0x14
def AUDIO_FORMAT_MPEGH_SUB_LC_L3 : Nat := 0x23
def AUDIO_FORMAT_MPEGH_SUB_LC_L4 : Nat := 0x24

/-- Main-class constants referenced by the sub-type compositions in
`AUDIO_FORMAT_LIST_DEF`. -/
def AUDIO_FORMAT_AAC : Nat := 0x04000000
def AUDIO_FORMAT_E_AC3 : Nat := 0x0A000000
def AUDIO_FORMAT_AAC_ADTS : Nat := 0x1E000000
def AUDIO_FORMAT_MAT : Nat := 0x24000000
def AUDIO_FORMAT_AAC_LATM : Nat := 0x25000000
def AUDIO_FORMAT_MPEGH : Nat := 0x2C000000

/-- Enum-only values declared outside `AUDIO_FORMAT_LIST_DEF`
("not valid formats, and thus don't participate in to/from string
conversions"). -/
def AUDIO_FORMAT_INVALID : Nat := 0xFFFFFFFF
def AUDIO_FORMAT_PCM : Nat := AUDIO_FORMAT_PCM_MAIN

/-- `AUDIO_FORMAT_LIST_DEF`. -/
def audioFormatList : List (String × Nat) :=
  [("AUDIO_FORMAT_DEFAULT", AUDIO_FORMAT_PCM_MAIN),
   ("AUDIO_FORMAT_PCM_16_BIT", AUDIO_FORMAT_PCM_MAIN ||| AUDIO_FORMAT_PCM_SUB_16_BIT),
   ("AUDIO_FORMAT_PCM_8_BIT", AUDIO_FORMAT_PCM_MAIN ||| AUDIO_FORMAT_PCM_SUB_8_BIT),
   ("AUDIO_FORMAT_PCM_32_BIT", AUDIO_FORMAT_PCM_MAIN ||| AUDIO_FORMAT_PCM_SUB_32_BIT),
   ("AUDIO_FORMAT_PCM_8_24_BIT", AUDIO_FORMAT_PCM_MAIN ||| AUDIO_FORMAT_PCM_SUB_8_24_BIT),
   ("AUDIO_FORMAT_PCM_FLOAT", AUDIO_FORMAT_PCM_MAIN ||| AUDIO_FORMAT_PCM_SUB_FLOAT),
   ("AUDIO_FORMAT_PCM_24_BIT_PACKED", AUDIO_FORMAT_PCM_MAIN ||| AUDIO_FORMAT_PCM_SUB_24_BIT_PACKED),
   ("AUDIO_FORMAT_MP3", 0x01000000),
   ("AUDIO_FORMAT_AMR_NB", 0x02000000),
   ("AUDIO_FORMAT_AMR_WB", 0x03000000),
   ("AUDIO_FORMAT_AAC", AUDIO_FORMAT_AAC),
   ("AUDIO_FORMAT_AAC_MAIN", AUDIO_FORMAT_AAC ||| AUDIO_FORMAT_AAC_SUB_MAIN),
   ("AUDIO_FORMAT_AAC_LC", AUDIO_FORMAT_AAC ||| AUDIO_FORMAT_AAC_SUB_LC),
   ("AUDIO_FORMAT_AAC_SSR", AUDIO_FORMAT_AAC ||| AUDIO_FORMAT_AAC_SUB_SSR),
   ("AUDIO_FORMAT_AAC_LTP", AUDIO_FORMAT_AAC ||| AUDIO_FORMAT_AAC_SUB_LTP),
   ("AUDIO_FORMAT_AAC_HE_V1", AUDIO_FORMAT_AAC ||| AUDIO_FORMAT_AAC_SUB_HE_V1),
   ("AUDIO_FORMAT_AAC_SCALABLE", AUDIO_FORMAT_AAC ||| AUDIO_FORMAT_AAC_SUB_SCALABLE),
   ("AUDIO_FORMAT_AAC_ERLC", AUDIO_FORMAT_AAC ||| AUDIO_FORMAT_AAC_SUB_ERLC),
   ("AUDIO_FORMAT_AAC_LD", AUDIO_FORMAT_AAC ||| AUDIO_FORMAT_AAC_SUB_LD),
   ("AUDIO_FORMAT_AAC_HE_V2", AUDIO_FORMAT_AAC ||| AUDIO_FORMAT_AAC_SUB_HE_V2),
   ("AUDIO_FORMAT_AAC_ELD", AUDIO_FORMAT_AAC ||| AUDIO_FORMAT_AAC_SUB_ELD),
   ("AUDIO_FORMAT_AAC_XHE", AUDIO_FORMAT_AAC ||| AUDIO_FORMAT_AAC_SUB_XHE),
   ("AUDIO_FORMAT_HE_AAC_V1", 0x05000000),
   ("AUDIO_FORMAT_HE_AAC_V2", 0x06000000),
   ("AUDIO_FORMAT_VORBIS", 0x07000000),
   ("AUDIO_FORMAT_OPUS", 0x08000000),
   ("AUDIO_FORMAT_AC3", 0x09000000),
   ("AUDIO_FORMAT_E_AC3", AUDIO_FORMAT_E_AC3),
   ("AUDIO_FORMAT_E_AC3_JOC", AUDIO_FORMAT_E_AC3 ||| AUDIO_FORMAT_E_AC3_SUB_JOC),
   ("AUDIO_FORMAT_DTS", 0x0B000000),
   ("AUDIO_FORMAT_DTS_HD", 0x0C000000),
   ("AUDIO_FORMAT_IEC61937", 0x0D000000),
   ("AUDIO_FORMAT_DOLBY_TRUEHD", 0x0E000000),
   ("AUDIO_FORMAT_EVRC", 0x10000000),
   ("AUDIO_FORMAT_EVRCB", 0x11000000),
   ("AUDIO_FORMAT_EVRCWB", 0x12000000),
   ("AUDIO_FORMAT_EVRCNW", 0x13000000),
   ("AUDIO_FORMAT_AAC_ADIF", 0x14000000),
   ("AUDIO_FORMAT_WMA", 0x15000000),
   ("AUDIO_FORMAT_WMA_PRO", 0x16000000),
   ("AUDIO_FORMAT_AMR_WB_PLUS", 0x17000000),
   ("AUDIO_FORMAT_MP2", 0x18000000),
   ("AUDIO_FORMAT_QCELP", 0x19000000),
   ("AUDIO_FORMAT_DSD", 0x1A000000),
   ("AUDIO_FORMAT_FLAC", 0x1B000000),
   ("AUDIO_FORMAT_ALAC", 0x1C000000),
   ("AUDIO_FORMAT_APE", 0x1D000000),
   ("AUDIO_FORMAT_AAC_ADTS", AUDIO_FORMAT_AAC_ADTS),
   ("AUDIO_FORMAT_AAC_ADTS_MAIN", AUDIO_FORMAT_AAC_ADTS ||| AUDIO_FORMAT_AAC_SUB_MAIN),
   ("AUDIO_FORMAT_AAC_ADTS_LC", AUDIO_FORMAT_AAC_ADTS ||| AUDIO_FORMAT_AAC_SUB_LC),
   ("AUDIO_FORMAT_AAC_ADTS_SSR", AUDIO_FORMAT_AAC_ADTS ||| AUDIO_FORMAT_AAC_SUB_SSR),
   ("AUDIO_FORMAT_AAC_ADTS_LTP", AUDIO_FORMAT_AAC_ADTS ||| AUDIO_FORMAT_AAC_SUB_LTP),
   ("AUDIO_FORMAT_AAC_ADTS_HE_V1", AUDIO_FORMAT_AAC_ADTS ||| AUDIO_FORMAT_AAC_SUB_HE_V1),
   ("AUDIO_FORMAT_AAC_ADTS_SCALABLE", AUDIO_FORMAT_AAC_ADTS ||| AUDIO_FORMAT_AAC_SUB_SCALABLE),
   ("AUDIO_FORMAT_AAC_ADTS_ERLC", AUDIO_FORMAT_AAC_ADTS ||| AUDIO_FORMAT_AAC_SUB_ERLC),
   ("AUDIO_FORMAT_AAC_ADTS_LD", AUDIO_FORMAT_AAC_ADTS ||| AUDIO_FORMAT_AAC_SUB_LD),
   ("AUDIO_FORMAT_AAC_ADTS_HE_V2", AUDIO_FORMAT_AAC_ADTS ||| AUDIO_FORMAT_AAC_SUB_HE_V2),
   ("AUDIO_FORMAT_AAC_ADTS_ELD", AUDIO_FORMAT_AAC_ADTS ||| AUDIO_FORMAT_AAC_SUB_ELD),
   ("AUDIO_FORMAT_AAC_ADTS_XHE", AUDIO_FORMAT_AAC_ADTS ||| AUDIO_FORMAT_AAC_SUB_XHE),
   ("AUDIO_FORMAT_SBC", 0x1F000000),
   ("AUDIO_FORMAT_APTX", 0x20000000),
   ("AUDIO_FORMAT_APTX_HD", 0x21000000),
   ("AUDIO_FORMAT_AC4", 0x22000000),
   ("AUDIO_FORMAT_LDAC", 0x23000000),
   ("AUDIO_FORMAT_MAT", AUDIO_FORMAT_MAT),
   ("AUDIO_FORMAT_MAT_1_0", AUDIO_FORMAT_MAT ||| AUDIO_FORMAT_MAT_SUB_1_0),
   ("AUDIO_FORMAT_MAT_2_0", AUDIO_FORMAT_MAT ||| AUDIO_FORMAT_MAT_SUB_2_0),
   ("AUDIO_FORMAT_MAT_2_1", AUDIO_FORMAT_MAT ||| AUDIO_FORMAT_MAT_SUB_2_1),
   ("AUDIO_FORMAT_AAC_LATM", AUDIO_FORMAT_AAC_LATM),
   ("AUDIO_FORMAT_AAC_LATM_LC", AUDIO_FORMAT_AAC_LATM ||| AUDIO_FORMAT_AAC_SUB_LC),
   ("AUDIO_FORMAT_AAC_LATM_HE_V1", AUDIO_FORMAT_AAC_LATM ||| AUDIO_FORMAT_AAC_SUB_HE_V1),
   ("AUDIO_FORMAT_AAC_LATM_HE_V2", AUDIO_FORMAT_AAC_LATM ||| AUDIO_FORMAT_AAC_SUB_HE_V2),
   ("AUDIO_FORMAT_CELT", 0x26000000),
   ("AUDIO_FORMAT_APTX_ADAPTIVE", 0x27000000),
   ("AUDIO_FORMAT_LHDC", 0x28000000),
   ("AUDIO_FORMAT_LHDC_LL", 0x29000000),
   ("AUDIO_FORMAT_APTX_TWSP", 0x2A000000),
   ("AUDIO_FORMAT_LC3", 0x2B000000),
   ("AUDIO_FORMAT_MPEGH", AUDIO_FORMAT_MPEGH),
   ("AUDIO_FORMAT_MPEGH_BL_L3", AUDIO_FORMAT_MPEGH ||| AUDIO_FORMAT_MPEGH_SUB_BL_L3),
   ("AUDIO_FORMAT_MPEGH_BL_L4", AUDIO_FORMAT_MPEGH ||| AUDIO_FORMAT_MPEGH_SUB_BL_L4),
   ("AUDIO_FORMAT_MPEGH_LC_L3", AUDIO_FORMAT_MPEGH ||| AUDIO_FORMAT_MPEGH_SUB_LC_L3),
   ("AUDIO_FORMAT_MPEGH_LC_L4", AUDIO_FORMAT_MPEGH ||| AUDIO_FORMAT_MPEGH_SUB_LC_L4)]

def audio_format_to_string (t : Nat) : String :=
  toName audioFormatList t

def audio_format_from_string (s : String) (t : Nat) : Bool × Nat :=
  fromString audioFormatList s t

def audio_format_parse (s : String) : Option Nat :=
  parse audioFormatList s

/-! ## Gain mode -/

def audioGainModeList : List (String × Nat) :=
  [("AUDIO_GAIN_MODE_JOINT", 1),
   ("AUDIO_GAIN_MODE_CHANNELS", 2),
   ("AUDIO_GAIN_MODE_RAMP", 4)]

def audio_gain_mode_to_string (t : Nat) : String :=
  toName audioGainModeList t

def audio_gain_mode_from_string (s : String) (t : Nat) : Bool × Nat :=
  fromString audioGainModeList s t

def audio_gain_mode_parse (s : String) : Option Nat :=
  parse audioGainModeList s

/-! ## Sources

These domains acquire a framework-only entry unless
`AUDIO_NO_SYSTEM_DECLARATIONS` is defined, so the projection function takes
a `fw` flag selecting the build mode (`true` = framework).  The parse
function is generated from the NO_SYS list in both build modes.  Values are
`Int` because the framework-only entries are negative. -/

def audioSourceListNoSys : List (String × Int) :=
  [("AUDIO_SOURCE_DEFAULT", 0),
   ("AUDIO_SOURCE_MIC", 1),
   ("AUDIO_SOURCE_VOICE_UPLINK", 2),
   ("AUDIO_SOURCE_VOICE_DOWNLINK", 3),
   ("AUDIO_SOURCE_VOICE_CALL", 4),
   ("AUDIO_SOURCE_CAMCORDER", 5),
   ("AUDIO_SOURCE_VOICE_RECOGNITION", 6),
   ("AUDIO_SOURCE_VOICE_COMMUNICATION", 7),
   ("AUDIO_SOURCE_REMOTE_SUBMIX", 8),
   ("AUDIO_SOURCE_UNPROCESSED", 9),
   ("AUDIO_SOURCE_VOICE_PERFORMANCE", 10),
   ("AUDIO_SOURCE_ECHO_REFERENCE", 1997),
   ("AUDIO_SOURCE_FM_TUNER", 1998),
   ("AUDIO_SOURCE_HOTWORD", 1999)]

/-- `AUDIO_SOURCE_LIST_DEF` in the framework build. -/
def audioSourceListFw : List (String × Int) :=
  audioSourceListNoSys ++ [("AUDIO_SOURCE_INVALID", -1)]

def audio_source_to_string (fw : Bool) (t : Int) : String :=
  toName (if fw then audioSourceListFw else audioSourceListNoSys) t

def audio_source_from_string (s : String) (t : Int) : Bool × Int :=
  fromString audioSourceListNoSys s t

def audio_source_parse (s : String) : Option Int :=
  parse audioSourceListNoSys s

/-! ## Stream types -/

def audioStreamListNoSys : List (String × Int) :=
  [("AUDIO_STREAM_VOICE_CALL", 0),
   ("AUDIO_STREAM_SYSTEM", 1),
   ("AUDIO_STREAM_RING", 2),
   ("AUDIO_STREAM_MUSIC", 3),
   ("AUDIO_STREAM_ALARM", 4),
   ("AUDIO_STREAM_NOTIFICATION", 5),
   ("AUDIO_STREAM_BLUETOOTH_SCO", 6),
   ("AUDIO_STREAM_ENFORCED_AUDIBLE", 7),
   ("AUDIO_STREAM_DTMF", 8),
   ("AUDIO_STREAM_TTS", 9),
   ("AUDIO_STREAM_ACCESSIBILITY", 10),
   ("AUDIO_STREAM_ASSISTANT", 11),
   ("AUDIO_STREAM_REROUTING", 12),
   ("AUDIO_STREAM_PATCH", 13),
   ("AUDIO_STREAM_CALL_ASSISTANT", 14)]

/-- `AUDIO_STREAM_LIST_DEF` in the framework build. -/
def audioStreamListFw : List (String × Int) :=
  audioStreamListNoSys ++ [("AUDIO_STREAM_DEFAULT", -1)]

def audio_stream_type_to_string (fw : Bool) (t : Int) : String :=
  toName (if fw then audioStreamListFw else audioStreamListNoSys) t

def audio_stream_type_from_string (s : String) (t : Int) : Bool × Int :=
  fromString audioStreamListNoSys s t

def audio_stream_type_parse (s : String) : Option Int :=
  parse audioStreamListNoSys s

/-! ## Usages -/

def audioUsageListNoSys : List (String × Int) :=
  [("AUDIO_USAGE_UNKNOWN", 0),
   ("AUDIO_USAGE_MEDIA", 1),
   ("AUDIO_USAGE_VOICE_COMMUNICATION", 2),
   ("AUDIO_USAGE_VOICE_COMMUNICATION_SIGNALLING", 3),
   ("AUDIO_USAGE_ALARM", 4),
   ("AUDIO_USAGE_NOTIFICATION", 5),
   ("AUDIO_USAGE_NOTIFICATION_TELEPHONY_RINGTONE", 6),
   ("AUDIO_USAGE_ASSISTANCE_ACCESSIBILITY", 11),
   ("AUDIO_USAGE_ASSISTANCE_NAVIGATION_GUIDANCE", 12),
   ("AUDIO_USAGE_ASSISTANCE_SONIFICATION", 13),
   ("AUDIO_USAGE_GAME", 14),
   ("AUDIO_USAGE_VIRTUAL_SOURCE", 15),
   ("AUDIO_USAGE_ASSISTANT", 16),
   ("AUDIO_USAGE_CALL_ASSISTANT", 17),
   ("AUDIO_USAGE_EMERGENCY", 1000),
   ("AUDIO_USAGE_SAFETY", 1001),
   ("AUDIO_USAGE_VEHICLE_STATUS", 1002),
   ("AUDIO_USAGE_ANNOUNCEMENT", 1003)]

/-- `AUDIO_USAGE_LIST_DEF` in the framework build: the NO_SYS list plus the
four framework-only notification sub-categories. -/
def audioUsageListFw : List (String × Int) :=
  audioUsageListNoSys ++
  [("AUDIO_USAGE_NOTIFICATION_COMMUNICATION_REQUEST", 7),
   ("AUDIO_USAGE_NOTIFICATION_COMMUNICATION_INSTANT", 8),
   ("AUDIO_USAGE_NOTIFICATION_COMMUNICATION_DELAYED", 9),
   ("AUDIO_USAGE_NOTIFICATION_EVENT", 10)]

def audio_usage_to_string (fw : Bool) (t : Int) : String :=
  toName (if fw then audioUsageListFw else audioUsageListNoSys) t

def audio_usage_from_string (s : String) (t : Int) : Bool × Int :=
  fromString audioUsageListNoSys s t

def audio_usage_parse (s : String) : Option Int :=
  parse audioUsageListNoSys s

/-! ## Generic lemmas about the two macro shapes -/

theorem fromString_eq_parse {α : Type} :
    ∀ (tbl : List (String × α)) (s : String) (t : α),
      fromString tbl s t =
        match parse tbl s with
        | some v => (true, v)
        | none => (false, t)
  | [], _, _ => rfl
  | (sym, v) :: rest, s, t => by
      unfold fromString parse
      by_cases h : sym = s
      · simp [h]
      · simp [h, fromString_eq_parse rest s t]

/-- A failed parse leaves the output location untouched. -/
theorem fromString_false {α : Type} (tbl : List (String × α)) (s : String)
    (t : α) (h : parse tbl s = none) : fromString tbl s t = (false, t) := by
  rw [fromString_eq_parse, h]

/-- A successful parse only ever produces a value present in the table. -/
theorem parse_value_mem {α : Type} :
    ∀ (tbl : List (String × α)) (s : String) (v : α),
      parse tbl s = some v → v ∈ tbl.map Prod.snd
  | [], _, _, h => by simp [parse] at h
  | (sym, w) :: rest, s, v, h => by
      unfold parse at h
      by_cases hs : sym = s
      · simp [hs] at h
        simp [h]
      · simp [hs] at h
        simp [parse_value_mem rest s v h]

/-- A non-empty projection result is the name of a table entry carrying
exactly the projected value. -/
theorem toName_mem {α : Type} [DecidableEq α] :
    ∀ (tbl : List (String × α)) (v : α),
      toName tbl v ≠ "" → (toName tbl v, v) ∈ tbl
  | [], _, h => absurd rfl h
  | (sym, w) :: rest, v, h => by
      unfold toName at h ⊢
      by_cases hv : v = w
      · simp [hv]
      · simp [hv] at h ⊢
        exact toName_mem rest v h

/-- The projection result is empty or one of the table's names. -/
theorem toName_names {α : Type} [DecidableEq α] :
    ∀ (tbl : List (String × α)) (v : α),
      toName tbl v = "" ∨ toName tbl v ∈ tbl.map Prod.fst
  | [], _ => Or.inl rfl
  | (sym, w) :: rest, v => by
      unfold toName
      by_cases hv : v = w
      · simp [hv]
      · rw [if_neg hv]
        rcases toName_names rest v with h | h
        · exact Or.inl h
        · exact Or.inr (List.mem_cons_of_mem _ h)

/-- Round-trip: if every projection-table entry parses back to its own
value, then any value with a non-empty projection parses back to itself. -/
theorem roundtrip {α : Type} [DecidableEq α]
    (proj ptab : List (String × α))
    (h : ∀ e ∈ proj, parse ptab e.1 = some e.2) (v : α)
    (hv : toName proj v ≠ "") : parse ptab (toName proj v) = some v :=
  h (toName proj v, v) (toName_mem proj v hv)

/-- Round-trip restricted to entries outside an excluded value set. -/
theorem roundtrip_excl {α : Type} [DecidableEq α]
    (proj ptab : List (String × α)) (excl : α → Prop)
    (h : ∀ e ∈ proj, ¬ excl e.2 → parse ptab e.1 = some e.2) (v : α)
    (hv : ¬ excl v) (hne : toName proj v ≠ "") :
    parse ptab (toName proj v) = some v :=
  h (toName proj v, v) (toName_mem proj v hne) hv

set_option maxRecDepth 100000
set_option maxHeartbeats 4000000

/-! ## Per-domain side conditions for the round-trip lemma, each checked by
evaluation over the concrete tables -/

theorem outMask_entries_parse :
    ∀ e ∈ audioChannelInOutMaskList ++ audioChannelOutMaskListUnique,
      parse audioChannelMaskParseList e.1 = some e.2 := by decide

theorem inMask_entries_parse :
    ∀ e ∈ audioChannelInOutMaskList ++ audioChannelInMaskList,
      parse audioChannelMaskParseList e.1 = some e.2 := by decide

theorem indexMask_entries_parse :
    ∀ e ∈ audioChannelInOutMaskList ++ audioChannelIndexMaskList,
      parse audioChannelMaskParseList e.1 = some e.2 := by decide

theorem contentType_entries_parse :
    ∀ e ∈ audioContentTypeList, parse audioContentTypeList e.1 = some e.2 := by
  decide

theorem device_entries_parse :
    ∀ e ∈ audioDeviceListUnique, parse audioDeviceList e.1 = some e.2 := by
  decide

theorem outputFlag_entries_parse :
    ∀ e ∈ audioOutputFlagList, parse audioOutputFlagList e.1 = some e.2 := by
  decide

theorem inputFlag_entries_parse :
    ∀ e ∈ audioInputFlagList, parse audioInputFlagList e.1 = some e.2 := by
  decide

theorem format_entries_parse :
    ∀ e ∈ audioFormatList, parse audioFormatList e.1 = some e.2 := by decide

theorem gainMode_entries_parse :
    ∀ e ∈ audioGainModeList, parse audioGainModeList e.1 = some e.2 := by
  decide

theorem source_entries_parse :
    ∀ e ∈ audioSourceListNoSys, parse audioSourceListNoSys e.1 = some e.2 := by
  decide

theorem sourceFw_entries_parse :
    ∀ e ∈ audioSourceListFw, ¬ e.2 = -1 →
      parse audioSourceListNoSys e.1 = some e.2 := by decide

theorem stream_entries_parse :
    ∀ e ∈ audioStreamListNoSys, parse audioStreamListNoSys e.1 = some e.2 := by
  decide

theorem streamFw_entries_parse :
    ∀ e ∈ audioStreamListFw, ¬ e.2 = -1 →
      parse audioStreamListNoSys e.1 = some e.2 := by decide

theorem usage_entries_parse :
    ∀ e ∈ audioUsageListNoSys, parse audioUsageListNoSys e.1 = some e.2 := by
  decide

theorem usageFw_entries_parse :
    ∀ e ∈ audioUsageListFw, ¬ e.2 ∈ ([7, 8, 9, 10] : List Int) →
      parse audioUsageListNoSys e.1 = some e.2 := by decide

/-! ## Direction-disjointness of the channel-mask name sets -/

theorem outMask_names_disjoint :
    ∀ s ∈ (audioChannelInOutMaskList ++ audioChannelOutMaskListUnique).map Prod.fst,
      s ∉ (audioChannelInMaskList ++ audioChannelIndexMaskList).map Prod.fst := by
  decide

theorem inMask_names_disjoint :
    ∀ s ∈ (audioChannelInOutMaskList ++ audioChannelInMaskList).map Prod.fst,
      s ∉ (audioChannelOutMaskList ++ audioChannelIndexMaskList).map Prod.fst := by
  decide

theorem indexMask_names_disjoint :
    ∀ s ∈ (audioChannelInOutMaskList ++ audioChannelIndexMaskList).map Prod.fst,
      s ∉ (audioChannelOutMaskList ++ audioChannelInMaskList).map Prod.fst := by
  decide

/-! ## Claims -/

/-- C3: every alias entry of the output channel-mask domain and of the
device domain (the only domains with aliases) projects through its value to
the canonical symbol — which differs from the alias name and is non-empty —
while parsing the alias name, like parsing the canonical symbol, yields the
shared numeric value. -/
theorem claim3_alias_behavior :
    (∀ e ∈ audioChannelOutMaskAliasList,
       audio_channel_out_mask_to_string e.2 ≠ "" ∧
       audio_channel_out_mask_to_string e.2 ≠ e.1 ∧
       audio_channel_mask_parse e.1 = some e.2 ∧
       audio_channel_mask_parse (audio_channel_out_mask_to_string e.2) = some e.2) ∧
    (∀ e ∈ audioDeviceAliasList,
       audio_device_to_string e.2 ≠ "" ∧
       audio_device_to_string e.2 ≠ e.1 ∧
       audio_device_parse e.1 = some e.2 ∧
       audio_device_parse (audio_device_to_string e.2) = some e.2) := by
  constructor <;> decide

/-- C3 witness: the 5POINT1_BACK alias at its concrete value. -/
theorem claim3_alias_behavior_witness :
    (("AUDIO_CHANNEL_OUT_5POINT1_BACK", AUDIO_CHANNEL_OUT_5POINT1_BACK) ∈
       audioChannelOutMaskAliasList) ∧
    (audio_channel_out_mask_to_string AUDIO_CHANNEL_OUT_5POINT1_BACK ≠ "" ∧
     audio_channel_out_mask_to_string AUDIO_CHANNEL_OUT_5POINT1_BACK ≠
       "AUDIO_CHANNEL_OUT_5POINT1_BACK" ∧
     audio_channel_mask_parse "AUDIO_CHANNEL_OUT_5POINT1_BACK" =
       some AUDIO_CHANNEL_OUT_5POINT1_BACK ∧
     audio_channel_mask_parse
       (audio_channel_out_mask_to_string AUDIO_CHANNEL_OUT_5POINT1_BACK) =
       some AUDIO_CHANNEL_OUT_5POINT1_BACK) :=
  ⟨by decide,
   claim3_alias_behavior.1
     ("AUDIO_CHANNEL_OUT_5POINT1_BACK", AUDIO_CHANNEL_OUT_5POINT1_BACK)
     (by decide)⟩

/-- C4: the sentinels `AUDIO_CHANNEL_INVALID` (0xC0000000) and
`AUDIO_FORMAT_INVALID` (0xFFFFFFFF) project to the empty string through
every projection function of their domain, and no string parses to either
value in the channel-mask or format domain. -/
theorem claim4_sentinel_exclusion :
    audio_channel_out_mask_to_string AUDIO_CHANNEL_INVALID = "" ∧
    audio_channel_in_mask_to_string AUDIO_CHANNEL_INVALID = "" ∧
    audio_channel_index_mask_to_string AUDIO_CHANNEL_INVALID = "" ∧
    audio_format_to_string AUDIO_FORMAT_INVALID = "" ∧
    (∀ s v, audio_channel_mask_parse s = some v → v ≠ AUDIO_CHANNEL_INVALID) ∧
    (∀ s v, audio_format_parse s = some v → v ≠ AUDIO_FORMAT_INVALID) := by
  refine ⟨by decide, by decide, by decide, by decide, ?_, ?_⟩
  · intro s v h hv
    subst hv
    exact absurd (parse_value_mem _ s _ h)
      (by decide : AUDIO_CHANNEL_INVALID ∉ audioChannelMaskParseList.map Prod.snd)
  · intro s v h hv
    subst hv
    exact absurd (parse_value_mem _ s _ h)
      (by decide : AUDIO_FORMAT_INVALID ∉ audioFormatList.map Prod.snd)

/-- C4 witness: a successful parse at a concrete string is distinct from
the sentinel. -/
theorem claim4_sentinel_exclusion_witness :
    audio_channel_mask_parse "AUDIO_CHANNEL_OUT_MONO" = some 1 ∧
    (1 : Nat) ≠ AUDIO_CHANNEL_INVALID :=
  ⟨by decide, claim4_sentinel_exclusion.2.2.2.2.1 "AUDIO_CHANNEL_OUT_MONO" 1 (by decide)⟩

/-- C5: for every domain's `from_string` function, when no entry matches
the input string the function returns `false` and leaves the output
location exactly as it was.  (The embedded functions are total Lean
functions, so no abort/throw behaviour exists by construction — matching
the straight-line C if-chains they embed.) -/
theorem claim5_failure_leaves_output :
    (∀ s t, audio_channel_mask_parse s = none →
       audio_channel_mask_from_string s t = (false, t)) ∧
    (∀ s t, audio_content_type_parse s = none →
       audio_content_type_from_string s t = (false, t)) ∧
    (∀ s t, audio_device_parse s = none →
       audio_device_from_string s t = (false, t)) ∧
    (∀ s t, audio_output_flag_parse s = none →
       audio_output_flag_from_string s t = (false, t)) ∧
    (∀ s t, audio_input_flag_parse s = none →
       audio_input_flag_from_string s t = (false, t)) ∧
    (∀ s t, audio_format_parse s = none →
       audio_format_from_string s t = (false, t)) ∧
    (∀ s t, audio_gain_mode_parse s = none →
       audio_gain_mode_from_string s t = (false, t)) ∧
    (∀ s t, audio_source_parse s = none →
       audio_source_from_string s t = (false, t)) ∧
    (∀ s t, audio_stream_type_parse s = none →
       audio_stream_type_from_string s t = (false, t)) ∧
    (∀ s t, audio_usage_parse s = none →
       audio_usage_from_string s t = (false, t)) :=
  ⟨fun s t h => fromString_false _ s t h, fun s t h => fromString_false _ s t h,
   fun s t h => fromString_false _ s t h, fun s t h => fromString_false _ s t h,
   fun s t h => fromString_false _ s t h, fun s t h => fromString_false _ s t h,
   fun s t h => fromString_false _ s t h, fun s t h => fromString_false _ s t h,
   fun s t h => fromString_false _ s t h, fun s t h => fromString_false _ s t h⟩

/-- C5 witness: an unmatched string leaves a concrete prior output value in
place. -/
theorem claim5_failure_leaves_output_witness :
    audio_channel_mask_parse "x" = none ∧
    audio_channel_mask_from_string "x" 7 = (false, 7) :=
  ⟨by decide, claim5_failure_leaves_output.1 "x" 7 (by decide)⟩

/-- C6: for every N in [1, 24], parsing
`"AUDIO_CHANNEL_INDEX_MASK_" ++ N` yields
`0x80000000 ||| ((1 <<< N) - 1)`, and the index-direction projection of
that value returns the same string. -/
theorem claim6_index_mask_formula :
    ∀ n, n < 25 → 1 ≤ n →
      audio_channel_mask_parse ("AUDIO_CHANNEL_INDEX_MASK_" ++ toString n) =
        some (0x80000000 ||| ((1 <<< n) - 1)) ∧
      audio_channel_index_mask_to_string (0x80000000 ||| ((1 <<< n) - 1)) =
        "AUDIO_CHANNEL_INDEX_MASK_" ++ toString n := by
  decide

/-- C6 witness: N = 3 gives 0x80000007. -/
theorem claim6_index_mask_formula_witness :
    (audio_channel_mask_parse ("AUDIO_CHANNEL_INDEX_MASK_" ++ toString 3) =
       some (0x80000000 ||| ((1 <<< 3) - 1)) ∧
     audio_channel_index_mask_to_string (0x80000000 ||| ((1 <<< 3) - 1)) =
       "AUDIO_CHANNEL_INDEX_MASK_" ++ toString 3) ∧
    (0x80000000 ||| ((1 <<< 3) - 1) : Nat) = 0x80000007 :=
  ⟨claim6_index_mask_formula 3 (by decide) (by decide), by decide⟩

/-- C7: within every domain the numeric values of the projection-table
(canonical) entries are pairwise distinct; the framework-build variants of
the source/stream/usage tables are the supersets, so their distinctness
covers the vendor variants too. -/
theorem claim7_canonical_values_distinct :
    ((audioChannelInOutMaskList ++ audioChannelOutMaskListUnique).map Prod.snd).Nodup ∧
    ((audioChannelInOutMaskList ++ audioChannelInMaskList).map Prod.snd).Nodup ∧
    ((audioChannelInOutMaskList ++ audioChannelIndexMaskList).map Prod.snd).Nodup ∧
    (audioContentTypeList.map Prod.snd).Nodup ∧
    (audioDeviceListUnique.map Prod.snd).Nodup ∧
    (audioOutputFlagList.map Prod.snd).Nodup ∧
    (audioInputFlagList.map Prod.snd).Nodup ∧
    (audioFormatList.map Prod.snd).Nodup ∧
    (audioGainModeList.map Prod.snd).Nodup ∧
    (audioSourceListFw.map Prod.snd).Nodup ∧
    (audioStreamListFw.map Prod.snd).Nodup ∧
    (audioUsageListFw.map Prod.snd).Nodup := by
  refine ⟨?_, ?_, ?_, ?_, ?_, ?_, ?_, ?_, ?_, ?_, ?_, ?_⟩ <;> decide

/-- C8: composite output masks are ORs of the discrete channels: parsing
`AUDIO_CHANNEL_OUT_STEREO` yields `FRONT_LEFT ||| FRONT_RIGHT` = 0x3, and
parsing `AUDIO_CHANNEL_OUT_5POINT1` yields the OR of its six constituents
= 0x3F.  (In the embedding, as in the source, every composite table value
is defined as the OR of previously defined discrete entries.) -/
theorem claim8_composite_masks :
    audio_channel_mask_parse "AUDIO_CHANNEL_OUT_STEREO" =
      some (AUDIO_CHANNEL_OUT_FRONT_LEFT ||| AUDIO_CHANNEL_OUT_FRONT_RIGHT) ∧
    AUDIO_CHANNEL_OUT_FRONT_LEFT ||| AUDIO_CHANNEL_OUT_FRONT_RIGHT = 0x3 ∧
    audio_channel_mask_parse "AUDIO_CHANNEL_OUT_5POINT1" =
      some (AUDIO_CHANNEL_OUT_FRONT_LEFT ||| AUDIO_CHANNEL_OUT_FRONT_RIGHT |||
            AUDIO_CHANNEL_OUT_FRONT_CENTER ||| AUDIO_CHANNEL_OUT_LOW_FREQUENCY |||
            AUDIO_CHANNEL_OUT_BACK_LEFT ||| AUDIO_CHANNEL_OUT_BACK_RIGHT) ∧
    AUDIO_CHANNEL_OUT_FRONT_LEFT ||| AUDIO_CHANNEL_OUT_FRONT_RIGHT |||
      AUDIO_CHANNEL_OUT_FRONT_CENTER ||| AUDIO_CHANNEL_OUT_LOW_FREQUENCY |||
      AUDIO_CHANNEL_OUT_BACK_LEFT ||| AUDIO_CHANNEL_OUT_BACK_RIGHT = 0x3F := by
  refine ⟨?_, ?_, ?_, ?_⟩ <;> decide

/-- C10: in the format domain, value 0 projects to `AUDIO_FORMAT_DEFAULT`
even though `AUDIO_FORMAT_PCM` (excluded from conversion by name) has the
same value 0; parsing `"AUDIO_FORMAT_PCM"` fails while parsing
`"AUDIO_FORMAT_DEFAULT"` yields 0. -/
theorem claim10_format_pcm_default :
    audio_format_to_string 0 = "AUDIO_FORMAT_DEFAULT" ∧
    AUDIO_FORMAT_PCM = 0 ∧
    audio_format_parse "AUDIO_FORMAT_PCM" = none ∧
    audio_format_parse "AUDIO_FORMAT_DEFAULT" = some 0 := by
  refine ⟨?_, ?_, ?_, ?_⟩ <;> decide

/-- C1 counterexample: in the framework build, projecting the source value
-1 yields the non-empty string `AUDIO_SOURCE_INVALID`, yet parsing that
string fails — `audio_source_from_string` is generated from the
non-system list in both build modes. -/
theorem claim1_roundtrip_counterexample :
    audio_source_to_string true (-1) = "AUDIO_SOURCE_INVALID" ∧
    ("AUDIO_SOURCE_INVALID" : String) ≠ "" ∧
    audio_source_parse "AUDIO_SOURCE_INVALID" = none := by
  refine ⟨?_, ?_, ?_⟩ <;> decide

/-- C1 (amended): the round-trip `from_string (to_string v) = v` holds for
every domain whenever the projection is non-empty, except at the
framework-only entries of the source, stream-type and usage domains
(values -1, -1 and 7–10 respectively), whose framework-build projections
are non-empty but which no build's parse table contains.  Vendor-build
projections round-trip unconditionally. -/
theorem claim1_roundtrip_amended :
    (∀ v, audio_channel_out_mask_to_string v ≠ "" →
       audio_channel_mask_parse (audio_channel_out_mask_to_string v) = some v) ∧
    (∀ v, audio_channel_in_mask_to_string v ≠ "" →
       audio_channel_mask_parse (audio_channel_in_mask_to_string v) = some v) ∧
    (∀ v, audio_channel_index_mask_to_string v ≠ "" →
       audio_channel_mask_parse (audio_channel_index_mask_to_string v) = some v) ∧
    (∀ v, audio_content_type_to_string v ≠ "" →
       audio_content_type_parse (audio_content_type_to_string v) = some v) ∧
    (∀ v, audio_device_to_string v ≠ "" →
       audio_device_parse (audio_device_to_string v) = some v) ∧
    (∀ v, audio_output_flag_to_string v ≠ "" →
       audio_output_flag_parse (audio_output_flag_to_string v) = some v) ∧
    (∀ v, audio_input_flag_to_string v ≠ "" →
       audio_input_flag_parse (audio_input_flag_to_string v) = some v) ∧
    (∀ v, audio_format_to_string v ≠ "" →
       audio_format_parse (audio_format_to_string v) = some v) ∧
    (∀ v, audio_gain_mode_to_string v ≠ "" →
       audio_gain_mode_parse (audio_gain_mode_to_string v) = some v) ∧
    (∀ v, audio_source_to_string false v ≠ "" →
       audio_source_parse (audio_source_to_string false v) = some v) ∧
    (∀ v, v ≠ -1 → audio_source_to_string true v ≠ "" →
       audio_source_parse (audio_source_to_string true v) = some v) ∧
    (∀ v, audio_stream_type_to_string false v ≠ "" →
       audio_stream_type_parse (audio_stream_type_to_string false v) = some v) ∧
    (∀ v, v ≠ -1 → audio_stream_type_to_string true v ≠ "" →
       audio_stream_type_parse (audio_stream_type_to_string true v) = some v) ∧
    (∀ v, audio_usage_to_string false v ≠ "" →
       audio_usage_parse (audio_usage_to_string false v) = some v) ∧
    (∀ v, v ∉ ([7, 8, 9, 10] : List Int) → audio_usage_to_string true v ≠ "" →
       audio_usage_parse (audio_usage_to_string true v) = some v) := by
  refine ⟨?_, ?_, ?_, ?_, ?_, ?_, ?_, ?_, ?_, ?_, ?_, ?_, ?_, ?_, ?_⟩
  · exact fun v hv => roundtrip
      (audioChannelInOutMaskList ++ audioChannelOutMaskListUnique)
      audioChannelMaskParseList outMask_entries_parse v hv
  · exact fun v hv => roundtrip
      (audioChannelInOutMaskList ++ audioChannelInMaskList)
      audioChannelMaskParseList inMask_entries_parse v hv
  · exact fun v hv => roundtrip
      (audioChannelInOutMaskList ++ audioChannelIndexMaskList)
      audioChannelMaskParseList indexMask_entries_parse v hv
  · exact fun v hv => roundtrip audioContentTypeList audioContentTypeList
      contentType_entries_parse v hv
  · exact fun v hv => roundtrip audioDeviceListUnique audioDeviceList
      device_entries_parse v hv
  · exact fun v hv => roundtrip audioOutputFlagList audioOutputFlagList
      outputFlag_entries_parse v hv
  · exact fun v hv => roundtrip audioInputFlagList audioInputFlagList
      inputFlag_entries_parse v hv
  · exact fun v hv => roundtrip audioFormatList audioFormatList
      format_entries_parse v hv
  · exact fun v hv => roundtrip audioGainModeList audioGainModeList
      gainMode_entries_parse v hv
  · exact fun v hv => roundtrip audioSourceListNoSys audioSourceListNoSys
      source_entries_parse v hv
  · exact fun v hv hne => roundtrip_excl audioSourceListFw audioSourceListNoSys
      (fun x => x = -1) sourceFw_entries_parse v hv hne
  · exact fun v hv => roundtrip audioStreamListNoSys audioStreamListNoSys
      stream_entries_parse v hv
  · exact fun v hv hne => roundtrip_excl audioStreamListFw audioStreamListNoSys
      (fun x => x = -1) streamFw_entries_parse v hv hne
  · exact fun v hv => roundtrip audioUsageListNoSys audioUsageListNoSys
      usage_entries_parse v hv
  · exact fun v hv hne => roundtrip_excl audioUsageListFw audioUsageListNoSys
      (fun x => x ∈ ([7, 8, 9, 10] : List Int)) usageFw_entries_parse v hv hne

/-- C1 witness: the output-mask round-trip at the concrete value 3
(`AUDIO_CHANNEL_OUT_STEREO`). -/
theorem claim1_roundtrip_amended_witness :
    audio_channel_out_mask_to_string 3 ≠ "" ∧
    audio_channel_mask_parse (audio_channel_out_mask_to_string 3) = some 3 :=
  ⟨by decide, claim1_roundtrip_amended.1 3 (by decide)⟩

/-- C2 counterexample: `audio_usage_from_string` is generated from the
non-system list in both build modes, so even the framework build fails to
parse the framework-only symbol `AUDIO_USAGE_NOTIFICATION_EVENT`,
contradicting the claim that framework-mode parsing succeeds. -/
theorem claim2_visibility_counterexample :
    audio_usage_parse "AUDIO_USAGE_NOTIFICATION_EVENT" = none ∧
    audio_usage_from_string "AUDIO_USAGE_NOTIFICATION_EVENT" 0 = (false, 0) := by
  constructor <;> decide

/-- C2 (amended): parsing the framework-only symbol
`AUDIO_USAGE_NOTIFICATION_EVENT` fails in BOTH build modes (the parse
chain is generated from the non-system list unconditionally); the build
switch affects projection instead: the framework build projects the value
10 to that symbol, while the vendor build, which never compiles the row,
projects it to the empty string. -/
theorem claim2_visibility_gate :
    audio_usage_to_string false 10 = "" ∧
    audio_usage_to_string true 10 = "AUDIO_USAGE_NOTIFICATION_EVENT" ∧
    audio_usage_parse "AUDIO_USAGE_NOTIFICATION_EVENT" = none ∧
    audio_usage_from_string "AUDIO_USAGE_NOTIFICATION_EVENT" 5 = (false, 5) := by
  refine ⟨?_, ?_, ?_, ?_⟩ <;> decide

/-- C9 counterexample: there is exactly one parse entry point for channel
masks, `audio_channel_mask_from_string`, and it successfully converts mask
names of all three directions — the caller supplies no direction when
parsing, contrary to the claim. -/
theorem claim9_direction_counterexample :
    audio_channel_mask_from_string "AUDIO_CHANNEL_OUT_STEREO" 0 =
      (true, AUDIO_CHANNEL_OUT_STEREO) ∧
    audio_channel_mask_from_string "AUDIO_CHANNEL_IN_STEREO" 0 =
      (true, AUDIO_CHANNEL_IN_STEREO) ∧
    audio_channel_mask_from_string "AUDIO_CHANNEL_INDEX_MASK_1" 0 =
      (true, AUDIO_CHANNEL_INDEX_HDR ||| ((1 <<< 1) - 1)) := by
  refine ⟨?_, ?_, ?_⟩ <;> decide

/-- C9 (amended): projection is split into three direction-specific entry
points, and each one only ever produces names belonging to its own
direction (or the shared `AUDIO_CHANNEL_NONE` / empty string); parsing,
however, uses a single shared entry point that accepts the names of all
three directions. -/
theorem claim9_direction_amended :
    (∀ v, audio_channel_out_mask_to_string v ∉
       (audioChannelInMaskList ++ audioChannelIndexMaskList).map Prod.fst) ∧
    (∀ v, audio_channel_in_mask_to_string v ∉
       (audioChannelOutMaskList ++ audioChannelIndexMaskList).map Prod.fst) ∧
    (∀ v, audio_channel_index_mask_to_string v ∉
       (audioChannelOutMaskList ++ audioChannelInMaskList).map Prod.fst) ∧
    (audio_channel_mask_parse "AUDIO_CHANNEL_OUT_MONO").isSome = true ∧
    (audio_channel_mask_parse "AUDIO_CHANNEL_IN_MONO").isSome = true ∧
    (audio_channel_mask_parse "AUDIO_CHANNEL_INDEX_MASK_2").isSome = true := by
  refine ⟨?_, ?_, ?_, by decide, by decide, by decide⟩
  · intro v
    unfold audio_channel_out_mask_to_string
    rcases toName_names (audioChannelInOutMaskList ++ audioChannelOutMaskListUnique) v
      with he | hn
    · rw [he]; decide
    · exact outMask_names_disjoint _ hn
  · intro v
    unfold audio_channel_in_mask_to_string
    rcases toName_names (audioChannelInOutMaskList ++ audioChannelInMaskList) v
      with he | hn
    · rw [he]; decide
    · exact inMask_names_disjoint _ hn
  · intro v
    unfold audio_channel_index_mask_to_string
    rcases toName_names (audioChannelInOutMaskList ++ audioChannelIndexMaskList) v
      with he | hn
    · rw [he]; decide
    · exact indexMask_names_disjoint _ hn

/-- C9 witness: the output-direction projection of the stereo mask is not
an input-direction or index-direction name. -/
theorem claim9_direction_amended_witness :
    audio_channel_out_mask_to_string AUDIO_CHANNEL_OUT_STEREO ∉
      (audioChannelInMaskList ++ audioChannelIndexMaskList).map Prod.fst :=
  claim9_direction_amended.1 AUDIO_CHANNEL_OUT_STEREO

end AudioHalEnums
